import Mathlib

/-!
Shallow embedding of the `@apiratorjs/locking` library core
(`src/semaphore.ts`, `src/read-write-lock.ts`, the in-memory distributed
wrappers and their registry) together with proofs about the embedded
operations.

The semaphore state is the record of fields of the `Semaphore` class:
`maxCount`, `_freeCount`, `_queue`, `_waitingForAnyUnlockListeners`,
`_waitingForFullyUnlockListeners`.  Queued acquisition requests are
identified by a numeric id and carry the absolute deadline of the
`setTimeout` timer armed for them; suspension-listener registrations
(which the code creates without any timer) are identified by a numeric id
alone.  Each method of the class becomes a pure function from the state to
a pair of the new state and an explicit description of the settlements
(promise resolutions / rejections) the method performs.
-/

/-- A pending acquisition request sitting in `_queue`: the deferred created
by `acquire` together with the absolute expiry instant of its
`setTimeout(timeoutMs)` timer. -/
structure Request where
  id : Nat
  deadline : Nat
deriving DecidableEq

/-- State of the `Semaphore` class from `src/semaphore.ts`: `maxCount`,
`_freeCount`, `_queue` and the two listener arrays used by
`waitForAnyUnlock` / `waitForFullyUnlock`.  Counters are integers, as in
the source. -/
structure Semaphore where
  maxCount : Int
  freeCount : Int
  queue : List Request
  waitingForAnyUnlockListeners : List Nat
  waitingForFullyUnlockListeners : List Nat
deriving DecidableEq

/-- The default acquisition timeout.  `src/semaphore.ts` imports
`DEFAULT_TIMEOUT_IN_MS` from `src/constants.ts`; the bundled earlier
revisions of the semaphore define the same constant inline as
`1_000 * 60` (one minute), matching the documented 60 000 ms default. -/
def DEFAULT_TIMEOUT_IN_MS : Nat := 1000 * 60

/-- `params?.timeoutMs || DEFAULT_TIMEOUT_IN_MS`: an absent timeout and
the falsy value `0` both select the default. -/
def timeoutOrDefault : Option Nat → Nat
  | some t => if t = 0 then DEFAULT_TIMEOUT_IN_MS else t
  | none => DEFAULT_TIMEOUT_IN_MS

/-- The constructor `new Semaphore(maxCount)`:
`assert.ok(maxCount > 0, "maxCount must be greater than 0")`, then all
permits free and all queues empty. -/
def Semaphore.create (maxCount : Int) : Except String Semaphore :=
  if 0 < maxCount then
    .ok ⟨maxCount, maxCount, [], [], []⟩
  else
    .error "maxCount must be greater than 0"

/-- Whether `acquire` returned synchronously (fast path) or pushed a
deferred onto `_queue`. -/
inductive AcquireOutcome
  | granted
  | queued
deriving DecidableEq

/-- `Semaphore.acquire(params?)`: if `_freeCount > 0`, decrement and
return a releaser immediately; otherwise arm a timer for
`timeoutMs = params?.timeoutMs || DEFAULT_TIMEOUT_IN_MS` and push the
deferred at the tail of `_queue`.  `now` is the instant of the call, so
the armed timer expires at `now + timeoutMs`. -/
def Semaphore.acquire (s : Semaphore) (reqId now : Nat) (params : Option Nat) :
    Semaphore × AcquireOutcome :=
  if 0 < s.freeCount then
    ({ s with freeCount := s.freeCount - 1 }, .granted)
  else
    ({ s with queue := s.queue ++ [⟨reqId, now + timeoutOrDefault params⟩] }, .queued)

/-- What `Semaphore.release()` did: nothing (over-release guard), granted
the permit to the head waiter of `_queue`, or incremented `_freeCount`
and flushed the listener arrays it resolved. -/
inductive ReleaseEffect
  | noop
  | grantedNext (r : Request)
  | freed (resolvedAnyUnlock : List Nat) (resolvedFullyUnlock : List Nat)
deriving DecidableEq

/-- The `waitForAnyUnlock` listeners resolved by a `release`. -/
def ReleaseEffect.resolvedAny : ReleaseEffect → List Nat
  | .freed a _ => a
  | _ => []

/-- The `waitForFullyUnlock` listeners resolved by a `release`. -/
def ReleaseEffect.resolvedFully : ReleaseEffect → List Nat
  | .freed _ f => f
  | _ => []

/-- `Semaphore.release()`: no-op when `_freeCount === maxCount`; otherwise
shift and resolve the head of `_queue` if non-empty (the permit
transfers, `_freeCount` unchanged); otherwise increment `_freeCount`,
flush `_waitingForAnyUnlockListeners` when non-empty, and flush
`_waitingForFullyUnlockListeners` when the new `_freeCount` equals
`maxCount`. -/
def Semaphore.release (s : Semaphore) : Semaphore × ReleaseEffect :=
  if s.freeCount = s.maxCount then
    (s, .noop)
  else
    match s.queue with
    | r :: rest => ({ s with queue := rest }, .grantedNext r)
    | [] =>
      let f := s.freeCount + 1
      let flushAny : Bool := decide (0 < f) && !s.waitingForAnyUnlockListeners.isEmpty
      let flushFully : Bool := decide (f = s.maxCount)
      ({ s with
          freeCount := f,
          waitingForAnyUnlockListeners :=
            if flushAny then [] else s.waitingForAnyUnlockListeners,
          waitingForFullyUnlockListeners :=
            if flushFully then [] else s.waitingForFullyUnlockListeners },
       .freed (if flushAny then s.waitingForAnyUnlockListeners else [])
              (if flushFully then s.waitingForFullyUnlockListeners else []))

/-- The settlements performed by `Semaphore.cancelAll(errMessage?)`: every
queued request and both listener arrays are rejected with
`errMessage ?? "Semaphore cancelled"`. -/
structure CancelEffect where
  rejectedRequests : List Request
  rejectedAnyUnlock : List Nat
  rejectedFullyUnlock : List Nat
  message : String
deriving DecidableEq

/-- `Semaphore.cancelAll(errMessage?)`: reject the whole `_queue` with the
message, clear it, reset `_freeCount = maxCount`, and reject (and clear)
both listener arrays with the same message. -/
def Semaphore.cancelAll (s : Semaphore) (errMessage : Option String) :
    Semaphore × CancelEffect :=
  ({ s with
      queue := [],
      freeCount := s.maxCount,
      waitingForAnyUnlockListeners := [],
      waitingForFullyUnlockListeners := [] },
   ⟨s.queue, s.waitingForAnyUnlockListeners, s.waitingForFullyUnlockListeners,
    errMessage.getD "Semaphore cancelled"⟩)

/-- `Semaphore.waitForFullyUnlock()`: resolve immediately when
`maxCount === _freeCount`, otherwise push a listener (with no timer) and
stay pending (`false`). -/
def Semaphore.waitForFullyUnlock (s : Semaphore) (lid : Nat) : Semaphore × Bool :=
  if s.maxCount = s.freeCount then
    (s, true)
  else
    ({ s with waitingForFullyUnlockListeners :=
        s.waitingForFullyUnlockListeners ++ [lid] }, false)

/-- `Semaphore.waitForAnyUnlock()`: resolve immediately when
`_freeCount > 0`, otherwise push a listener (with no timer) and stay
pending (`false`). -/
def Semaphore.waitForAnyUnlock (s : Semaphore) (lid : Nat) : Semaphore × Bool :=
  if 0 < s.freeCount then
    (s, true)
  else
    ({ s with waitingForAnyUnlockListeners :=
        s.waitingForAnyUnlockListeners ++ [lid] }, false)

/-- The `setTimeout` callback armed by `acquire` for request `r`:
`indexOf` + `splice` removes the first occurrence of the deferred from
`_queue` (if still present) and rejects it with
`"Timeout acquiring semaphore"`.  `_freeCount` is untouched. -/
def Semaphore.fireTimeout (s : Semaphore) (r : Request) : Semaphore × String :=
  ({ s with queue := s.queue.erase r }, "Timeout acquiring semaphore")

/-- Wall-clock time reaching instant `now`: every timer armed for a still
queued request whose deadline has passed fires (see `fireTimeout`); the
fired requests are removed and rejected.  Listener registrations carry no
timer and are untouched. -/
def Semaphore.advanceTime (s : Semaphore) (now : Nat) : Semaphore × List Request :=
  ({ s with queue := s.queue.filter (fun r => decide (now < r.deadline)) },
   s.queue.filter (fun r => decide (r.deadline ≤ now)))

/-- `Semaphore.isLocked()`: `_freeCount === 0`. -/
def Semaphore.isLocked (s : Semaphore) : Bool :=
  s.freeCount = 0

/-- One operation of a client-visible history against a semaphore. -/
inductive SemOp
  | acquireOp (reqId now : Nat) (params : Option Nat)
  | releaseOp
  | cancelAllOp (msg : Option String)
  | timeoutOp (r : Request)

/-- Apply one operation, keeping only the state. -/
def Semaphore.stepOp (s : Semaphore) : SemOp → Semaphore
  | .acquireOp reqId now p => (s.acquire reqId now p).1
  | .releaseOp => s.release.1
  | .cancelAllOp m => (s.cancelAll m).1
  | .timeoutOp r => (s.fireTimeout r).1

/-- Run a finite sequence of operations. -/
def Semaphore.runOps (s : Semaphore) : List SemOp → Semaphore
  | [] => s
  | op :: rest => (s.stepOp op).runOps rest

/-- The requests granted by `i` consecutive `release()` calls, in order. -/
def Semaphore.releaseGrants (s : Semaphore) : Nat → List Request
  | 0 => []
  | i + 1 =>
    match s.release with
    | (t, .grantedNext r) => r :: t.releaseGrants i
    | (t, .noop) => t.releaseGrants i
    | (t, .freed _ _) => t.releaseGrants i

/-- State of `ReadWriteLock` from `src/read-write-lock.ts`: one semaphore
for readers (`maxReaders` permits) and one for the writer (1 permit). -/
structure ReadWriteLock where
  readSemaphore : Semaphore
  writeSemaphore : Semaphore
deriving DecidableEq

/-- The `ReadWriteLock` constructor:
`new Semaphore(props?.maxReaders || 100)` and `new Semaphore(1)`.  The
falsy value `0` (like an absent field) selects the default `100`; a
negative value reaches the inner semaphore assertion and throws. -/
def ReadWriteLock.create (maxReaders : Option Int) : Except String ReadWriteLock :=
  let readMax : Int :=
    match maxReaders with
    | some v => if v = 0 then 100 else v
    | none => 100
  match Semaphore.create readMax, Semaphore.create 1 with
  | .ok r, .ok w => .ok ⟨r, w⟩
  | .error e, _ => .error e
  | .ok _, .error e => .error e

/-- `ReadWriteLock.activeReaders()` = `maxCount - freeCount` of the read
semaphore. -/
def ReadWriteLock.activeReaders (l : ReadWriteLock) : Int :=
  l.readSemaphore.maxCount - l.readSemaphore.freeCount

/-- Whether the first `await` of `acquireRead` / `acquireWrite` fell
through immediately or registered a fully-unlock listener and suspended. -/
inductive StartOutcome
  | proceed
  | pendingListener
deriving DecidableEq

/-- First phase of `ReadWriteLock.acquireRead`:
`await this._writeSemaphore.waitForFullyUnlock()`. -/
def ReadWriteLock.acquireReadStart (l : ReadWriteLock) (lid : Nat) :
    ReadWriteLock × StartOutcome :=
  let p := l.writeSemaphore.waitForFullyUnlock lid
  ({ l with writeSemaphore := p.1 }, if p.2 then .proceed else .pendingListener)

/-- Second phase of `ReadWriteLock.acquireRead` (runs only after the first
phase resolved): `await this._readSemaphore.acquire(params, token)`. -/
def ReadWriteLock.acquireReadFinish (l : ReadWriteLock) (reqId now : Nat)
    (params : Option Nat) : ReadWriteLock × AcquireOutcome :=
  let p := l.readSemaphore.acquire reqId now params
  ({ l with readSemaphore := p.1 }, p.2)

/-- First phase of `ReadWriteLock.acquireWrite`:
`await this._readSemaphore.waitForFullyUnlock()`. -/
def ReadWriteLock.acquireWriteStart (l : ReadWriteLock) (lid : Nat) :
    ReadWriteLock × StartOutcome :=
  let p := l.readSemaphore.waitForFullyUnlock lid
  ({ l with readSemaphore := p.1 }, if p.2 then .proceed else .pendingListener)

/-- Second phase of `ReadWriteLock.acquireWrite`:
`await this._writeSemaphore.acquire(params, token)`. -/
def ReadWriteLock.acquireWriteFinish (l : ReadWriteLock) (reqId now : Nat)
    (params : Option Nat) : ReadWriteLock × AcquireOutcome :=
  let p := l.writeSemaphore.acquire reqId now params
  ({ l with writeSemaphore := p.1 }, p.2)

/-- The read releaser: `readReleaser.release()` delegates to the read
semaphore. -/
def ReadWriteLock.releaseRead (l : ReadWriteLock) : ReadWriteLock × ReleaseEffect :=
  let p := l.readSemaphore.release
  ({ l with readSemaphore := p.1 }, p.2)

/-- The write releaser: `writeReleaser.release()` delegates to the write
semaphore. -/
def ReadWriteLock.releaseWrite (l : ReadWriteLock) : ReadWriteLock × ReleaseEffect :=
  let p := l.writeSemaphore.release
  ({ l with writeSemaphore := p.1 }, p.2)

/-- `ReadWriteLock.cancelAll(errMessage?)`: cancel both semaphores with
the same message. -/
def ReadWriteLock.cancelAll (l : ReadWriteLock) (errMessage : Option String) :
    ReadWriteLock × CancelEffect × CancelEffect :=
  let pr := l.readSemaphore.cancelAll errMessage
  let pw := l.writeSemaphore.cancelAll errMessage
  (⟨pr.1, pw.1⟩, pr.2, pw.2)

/-- JS `Map.prototype.set`: replace the value of an existing key in place,
otherwise append the binding (insertion order is preserved). -/
def mapSet {α : Type} : List (String × α) → String → α → List (String × α)
  | [], k, v => [(k, v)]
  | (k0, v0) :: rest, k, v =>
    if k0 = k then (k, v) :: rest else (k0, v0) :: mapSet rest k v

/-- JS `Map.prototype.get`. -/
def mapGet {α : Type} : List (String × α) → String → Option α
  | [], _ => none
  | (k0, v0) :: rest, k => if k0 = k then some v0 else mapGet rest k

/-- JS `Map.prototype.has`. -/
def mapHas {α : Type} (m : List (String × α)) (k : String) : Bool :=
  (mapGet m k).isSome

/-- JS `Map.prototype.delete` (dropping the returned boolean). -/
def mapDelete {α : Type} (m : List (String × α)) (k : String) : List (String × α) :=
  m.filter (fun p => decide (p.1 ≠ k))

/-- Handle state of `InMemoryDistributedSemaphore`
(`src/in-memory-distributed/in-memory-distributed-semaphore.ts`):
`maxCount`, the resolved registry key `name`, and `_isDestroyed`. -/
structure InMemoryDistributedSemaphore where
  maxCount : Int
  name : String
  isDestroyed : Bool
deriving DecidableEq

/-- The `InMemoryDistributedSemaphore` constructor with the default
`_type = "semaphore"`: compute `name`, then unconditionally
`this._registry.set(this.name, new Semaphore(this.maxCount))` — there is
no `has` check before the `set`. -/
def InMemoryDistributedSemaphore.construct (propsName : String) (maxCount : Int)
    (registry : List (String × Semaphore)) :
    Except String (InMemoryDistributedSemaphore × List (String × Semaphore)) :=
  let nm := "semaphore:" ++ propsName
  match Semaphore.create maxCount with
  | .ok sem => .ok (⟨maxCount, nm, false⟩, mapSet registry nm sem)
  | .error e => .error e

/-- `InMemoryDistributedSemaphore.destroy()`: set `_isDestroyed = true`
and delete the registry entry.  The third component lists the queued
requests the call rejects: the method never touches the backing
semaphore, so it rejects none. -/
def InMemoryDistributedSemaphore.destroy (h : InMemoryDistributedSemaphore)
    (registry : List (String × Semaphore)) :
    InMemoryDistributedSemaphore × List (String × Semaphore) × List Request :=
  ({ h with isDestroyed := true }, mapDelete registry h.name, [])

/-- The two `throw` sites of `getSemaphoreOrException` /
`getRWLockOrException`. -/
inductive RegistryError
  | destroyed (name : String)
  | notFound (name : String)
deriving DecidableEq

/-- `InMemoryDistributedSemaphore.getSemaphoreOrException()`: throw a
destroyed-error when `_isDestroyed`, a not-found error when the name is
absent from the registry. -/
def InMemoryDistributedSemaphore.getSemaphoreOrException
    (h : InMemoryDistributedSemaphore) (registry : List (String × Semaphore)) :
    Except RegistryError Semaphore :=
  if h.isDestroyed then
    .error (.destroyed h.name)
  else
    match mapGet registry h.name with
    | some sem => .ok sem
    | none => .error (.notFound h.name)

/-- Handle state of `InMemoryDistributedReadWriteLock`
(`src/in-memory-distributed/in-memory-distributed-read-write-lock.ts`). -/
structure InMemoryDistributedReadWriteLock where
  name : String
  isDestroyed : Bool
deriving DecidableEq

/-- The `InMemoryDistributedReadWriteLock` constructor with
`_type = "rwlock"`: unlike the semaphore wrapper it guards the insertion
with `if (!this._registry.has(this.name))`, so an existing entry is
reused untouched. -/
def InMemoryDistributedReadWriteLock.construct (propsName : String)
    (maxReaders : Option Int) (registry : List (String × ReadWriteLock)) :
    Except String (InMemoryDistributedReadWriteLock × List (String × ReadWriteLock)) :=
  let nm := "rwlock:" ++ propsName
  if mapHas registry nm then
    .ok (⟨nm, false⟩, registry)
  else
    match ReadWriteLock.create maxReaders with
    | .ok lock => .ok (⟨nm, false⟩, mapSet registry nm lock)
    | .error e => .error e

/-- `InMemoryDistributedReadWriteLock.getRWLockOrException()`: only the
registry lookup is checked (no `_isDestroyed` test in this class). -/
def InMemoryDistributedReadWriteLock.getRWLockOrException
    (h : InMemoryDistributedReadWriteLock)
    (registry : List (String × ReadWriteLock)) :
    Except RegistryError ReadWriteLock :=
  match mapGet registry h.name with
  | some lock => .ok lock
  | none => .error (.notFound h.name)

/-- `InMemoryDistributedReadWriteLock.destroy(message?)`: look the lock up
(throwing if absent), set `_isDestroyed = true`, delete the registry
entry, then `rwLock.cancelAll(message ?? "ReadWriteLock destroyed")`. -/
def InMemoryDistributedReadWriteLock.destroy (h : InMemoryDistributedReadWriteLock)
    (message : Option String) (registry : List (String × ReadWriteLock)) :
    Except RegistryError
      (InMemoryDistributedReadWriteLock × List (String × ReadWriteLock) ×
        CancelEffect × CancelEffect) :=
  match mapGet registry h.name with
  | none => .error (.notFound h.name)
  | some lock =>
    let c := lock.cancelAll (some (message.getD "ReadWriteLock destroyed"))
    .ok ({ h with isDestroyed := true }, mapDelete registry h.name, c.2.1, c.2.2)

/-- The `DistributedReadWriteLock` wrapper constructor: asserts a
non-empty `name` and `maxReaders === undefined || maxReaders > 0` before
delegating to the in-memory implementation. -/
def DistributedReadWriteLock.create (propsName : String) (maxReaders : Option Int)
    (registry : List (String × ReadWriteLock)) :
    Except String (InMemoryDistributedReadWriteLock × List (String × ReadWriteLock)) :=
  if propsName = "" then
    .error "DistributedReadWriteLock requires a non-empty name."
  else if (match maxReaders with | some v => decide (v ≤ 0) | none => false) then
    .error "maxReaders must be greater than 0"
  else
    InMemoryDistributedReadWriteLock.construct propsName maxReaders registry

theorem releaseGrants_eq_take (i : Nat) :
    ∀ s : Semaphore, s.freeCount = 0 → 0 < s.maxCount → i ≤ s.queue.length →
      s.releaseGrants i = s.queue.take i := by
  induction i with
  | zero =>
    intro s _ _ _
    simp [Semaphore.releaseGrants]
  | succ i ih =>
    intro s h0 hpos hlen
    cases hq : s.queue with
    | nil => rw [hq] at hlen; simp at hlen
    | cons r rest =>
      have hne : s.freeCount ≠ s.maxCount := by omega
      have hrel : s.release = ({ s with queue := rest }, ReleaseEffect.grantedNext r) := by
        rw [Semaphore.release, if_neg hne, hq]
      have hlen2 : i ≤ rest.length := by
        rw [hq] at hlen
        simp at hlen
        omega
      have ihr := ih { s with queue := rest } h0 hpos hlen2
      rw [Semaphore.releaseGrants, hrel]
      simp [hq, ihr]

/-- C1: `release()` follows the three-way case split of the source — with a
non-empty queue (hence `freeCount = 0` in any reachable state) it shifts the
head request and grants it the permit with `freeCount` unchanged; with an
empty queue and `freeCount < maxCount` it increments `freeCount`; with
`freeCount = maxCount` it is a no-op — and for a held semaphore, `i`
consecutive releases grant exactly the `i` longest-waiting requests in
enqueue order. -/
theorem C1_release_case_split_and_fifo
    (s : Semaphore) (hs0 : s.freeCount = 0) (hspos : 0 < s.maxCount)
    (r : Request) (rest : List Request) (hcons : s.queue = r :: rest)
    (v : Semaphore) (hvq : v.queue = []) (hvlt : v.freeCount < v.maxCount)
    (u : Semaphore) (hu : u.freeCount = u.maxCount)
    (t : Semaphore) (ht0 : t.freeCount = 0) (htpos : 0 < t.maxCount)
    (i : Nat) (hi : i ≤ t.queue.length) :
    s.release = ({ s with queue := rest }, ReleaseEffect.grantedNext r) ∧
    s.release.1.freeCount = s.freeCount ∧
    v.release.1.freeCount = v.freeCount + 1 ∧
    u.release = (u, ReleaseEffect.noop) ∧
    t.releaseGrants i = t.queue.take i := by
  have hsne : s.freeCount ≠ s.maxCount := by omega
  have hvne : v.freeCount ≠ v.maxCount := by omega
  have hrel : s.release = ({ s with queue := rest }, ReleaseEffect.grantedNext r) := by
    rw [Semaphore.release, if_neg hsne, hcons]
  refine ⟨hrel, by rw [hrel], ?_, ?_, releaseGrants_eq_take i t ht0 htpos hi⟩
  · rw [Semaphore.release, if_neg hvne, hvq]
  · rw [Semaphore.release, if_pos hu]

theorem C1_release_case_split_and_fifo_witness :
    (⟨1, 0, [⟨1, 60000⟩, ⟨2, 60000⟩], [], []⟩ : Semaphore).release
      = (⟨1, 0, [⟨2, 60000⟩], [], []⟩, ReleaseEffect.grantedNext ⟨1, 60000⟩) ∧
    (⟨1, 0, [⟨1, 60000⟩, ⟨2, 60000⟩], [], []⟩ : Semaphore).release.1.freeCount
      = (⟨1, 0, [⟨1, 60000⟩, ⟨2, 60000⟩], [], []⟩ : Semaphore).freeCount ∧
    (⟨2, 1, [], [], []⟩ : Semaphore).release.1.freeCount
      = (⟨2, 1, [], [], []⟩ : Semaphore).freeCount + 1 ∧
    (⟨1, 1, [], [], []⟩ : Semaphore).release = (⟨1, 1, [], [], []⟩, ReleaseEffect.noop) ∧
    (⟨1, 0, [⟨1, 60000⟩, ⟨2, 60000⟩], [], []⟩ : Semaphore).releaseGrants 2
      = [⟨1, 60000⟩, ⟨2, 60000⟩] :=
  C1_release_case_split_and_fifo
    ⟨1, 0, [⟨1, 60000⟩, ⟨2, 60000⟩], [], []⟩ rfl (by decide) ⟨1, 60000⟩ [⟨2, 60000⟩] rfl
    ⟨2, 1, [], [], []⟩ rfl (by decide)
    ⟨1, 1, [], [], []⟩ rfl
    ⟨1, 0, [⟨1, 60000⟩, ⟨2, 60000⟩], [], []⟩ rfl (by decide) 2 (by decide)

theorem stepOp_maxCount_eq (s : Semaphore) (op : SemOp) :
    (s.stepOp op).maxCount = s.maxCount := by
  cases op with
  | acquireOp a b c =>
    simp only [Semaphore.stepOp, Semaphore.acquire]
    split <;> rfl
  | releaseOp =>
    simp only [Semaphore.stepOp, Semaphore.release]
    split
    · rfl
    · split <;> rfl
  | cancelAllOp m => rfl
  | timeoutOp r => rfl

theorem stepOp_freeCount_bounds (s : Semaphore) (op : SemOp)
    (h0 : 0 ≤ s.freeCount) (h1 : s.freeCount ≤ s.maxCount) :
    0 ≤ (s.stepOp op).freeCount ∧ (s.stepOp op).freeCount ≤ s.maxCount := by
  cases op with
  | acquireOp a b c =>
    simp only [Semaphore.stepOp, Semaphore.acquire]
    split
    · constructor <;> simp <;> omega
    · exact ⟨h0, h1⟩
  | releaseOp =>
    simp only [Semaphore.stepOp, Semaphore.release]
    split
    · exact ⟨h0, h1⟩
    · split
      · exact ⟨h0, h1⟩
      · constructor <;> simp <;> omega
  | cancelAllOp m =>
    exact ⟨le_trans h0 h1, le_refl s.maxCount⟩
  | timeoutOp r =>
    exact ⟨h0, h1⟩

theorem runOps_freeCount_bounds (ops : List SemOp) :
    ∀ s : Semaphore, 0 ≤ s.freeCount → s.freeCount ≤ s.maxCount →
      (0 ≤ (s.runOps ops).freeCount ∧ (s.runOps ops).freeCount ≤ s.maxCount) := by
  induction ops with
  | nil =>
    intro s h0 h1
    exact ⟨h0, h1⟩
  | cons op rest ih =>
    intro s h0 h1
    have hstep := stepOp_freeCount_bounds s op h0 h1
    have hmax := stepOp_maxCount_eq s op
    have hrest := ih (s.stepOp op) hstep.1 (le_of_le_of_eq hstep.2 hmax.symm)
    exact ⟨hrest.1, le_of_le_of_eq hrest.2 hmax⟩

/-- C2: starting from any successfully constructed `Semaphore(n)`, every
finite sequence of acquire / release / cancel / timeout operations keeps
`freeCount` within `[0, n]`, and an over-release performed when
`freeCount` already equals `maxCount` changes neither the state nor the
queue (it is a no-op). -/
theorem C2_freeCount_in_bounds
    (n : Int) (s₀ : Semaphore) (hok : Semaphore.create n = .ok s₀)
    (ops : List SemOp)
    (u : Semaphore) (hu : u.freeCount = u.maxCount) :
    (0 ≤ (s₀.runOps ops).freeCount ∧ (s₀.runOps ops).freeCount ≤ n) ∧
    u.release = (u, ReleaseEffect.noop) := by
  constructor
  · unfold Semaphore.create at hok
    split_ifs at hok with h
    · injection hok with h2
      subst h2
      exact runOps_freeCount_bounds ops ⟨n, n, [], [], []⟩ (le_of_lt h) (le_refl n)
  · rw [Semaphore.release, if_pos hu]

theorem C2_freeCount_in_bounds_witness :
    (0 ≤ ((⟨2, 2, [], [], []⟩ : Semaphore).runOps
            [SemOp.acquireOp 1 0 none, SemOp.releaseOp, SemOp.releaseOp]).freeCount ∧
      ((⟨2, 2, [], [], []⟩ : Semaphore).runOps
            [SemOp.acquireOp 1 0 none, SemOp.releaseOp, SemOp.releaseOp]).freeCount ≤ 2) ∧
    (⟨3, 3, [], [], []⟩ : Semaphore).release = (⟨3, 3, [], [], []⟩, ReleaseEffect.noop) :=
  C2_freeCount_in_bounds 2 ⟨2, 2, [], [], []⟩ rfl
    [SemOp.acquireOp 1 0 none, SemOp.releaseOp, SemOp.releaseOp]
    ⟨3, 3, [], [], []⟩ rfl

/-- C3 counterexample: with `Semaphore(2)` and two holders, one holder
releases once (`freeCount` becomes 1) and then calls `release()` again.
The claim says the second call has no further effect in every state, but
the code only guards with `freeCount === maxCount`: the second call
increments `freeCount` to 2 although the other permit is still
outstanding. -/
theorem C3_counterexample_double_release_with_other_holder :
    ((((⟨2, 2, [], [], []⟩ : Semaphore).acquire 1 0 none).1.acquire 2 0 none).1.release.1.release.1
      ≠ (((⟨2, 2, [], [], []⟩ : Semaphore).acquire 1 0 none).1.acquire 2 0 none).1.release.1) ∧
    ((((⟨2, 2, [], [], []⟩ : Semaphore).acquire 1 0 none).1.acquire 2 0 none).1.release.1.freeCount
      = 1) ∧
    ((((⟨2, 2, [], [], []⟩ : Semaphore).acquire 1 0 none).1.acquire 2 0 none).1.release.1.release.1.freeCount
      = 2) := by
  refine ⟨by decide, by decide, by decide⟩

/-- C3 (amended): `release()` via a releaser is a guaranteed no-op only in
the fully released state (`freeCount = maxCount`); consequently in the
single-acquisition scenario — acquire once on a fresh semaphore, release,
release again — the second call has no effect.  With other permits
outstanding or waiters queued, a second `release()` behaves as a further
release (increments `freeCount` or grants another waiter). -/
theorem C3_amended_release_idempotent_when_fully_released
    (u : Semaphore) (hu : u.freeCount = u.maxCount)
    (n : Int) (s₀ : Semaphore) (hok : Semaphore.create n = .ok s₀)
    (reqId now : Nat) (p : Option Nat) :
    u.release = (u, ReleaseEffect.noop) ∧
    ((s₀.acquire reqId now p).1.release).1.release
      = (((s₀.acquire reqId now p).1.release).1, ReleaseEffect.noop) ∧
    ((s₀.acquire reqId now p).1.release).1.freeCount = s₀.maxCount := by
  refine ⟨by rw [Semaphore.release, if_pos hu], ?_, ?_⟩ <;>
  · unfold Semaphore.create at hok
    split_ifs at hok with h
    · injection hok with h2
      subst h2
      have hacq : ((⟨n, n, [], [], []⟩ : Semaphore).acquire reqId now p)
          = (⟨n, n - 1, [], [], []⟩, AcquireOutcome.granted) := by
        rw [Semaphore.acquire, if_pos h]
      have hne : (n - 1 : Int) ≠ n := by omega
      have hrel : (⟨n, n - 1, [], [], []⟩ : Semaphore).release
          = (⟨n, n, [], [], []⟩, ReleaseEffect.freed [] []) := by
        rw [Semaphore.release]
        simp [hne]
      rw [hacq]
      simp [hrel, Semaphore.release]

/-- C4: `cancelAll(message?)` rejects every queued request with the given
message (default `"Semaphore cancelled"`), empties the queue, resets
`freeCount` to `maxCount`, rejects every pending `waitForAnyUnlock` /
`waitForFullyUnlock` observer with the same message, and a subsequent
fresh `acquire()` on the resulting state is granted immediately. -/
theorem C4_cancelAll_drains_and_rejects
    (s : Semaphore) (msg : Option String) (hpos : 0 < s.maxCount)
    (reqId now : Nat) (p : Option Nat) :
    (s.cancelAll msg).2.rejectedRequests = s.queue ∧
    (s.cancelAll msg).2.message = msg.getD "Semaphore cancelled" ∧
    (s.cancelAll msg).2.rejectedAnyUnlock = s.waitingForAnyUnlockListeners ∧
    (s.cancelAll msg).2.rejectedFullyUnlock = s.waitingForFullyUnlockListeners ∧
    (s.cancelAll msg).1.queue = [] ∧
    (s.cancelAll msg).1.freeCount = s.maxCount ∧
    (s.cancelAll msg).1.waitingForAnyUnlockListeners = [] ∧
    (s.cancelAll msg).1.waitingForFullyUnlockListeners = [] ∧
    ((s.cancelAll msg).1.acquire reqId now p).2 = AcquireOutcome.granted := by
  refine ⟨rfl, rfl, rfl, rfl, rfl, rfl, rfl, rfl, ?_⟩
  rw [Semaphore.acquire]
  simp only [Semaphore.cancelAll]
  rw [if_pos hpos]

theorem C4_cancelAll_drains_and_rejects_witness :
    ((⟨1, 0, [⟨4, 60000⟩], [7], [8]⟩ : Semaphore).cancelAll none).2.rejectedRequests
      = (⟨1, 0, [⟨4, 60000⟩], [7], [8]⟩ : Semaphore).queue ∧
    ((⟨1, 0, [⟨4, 60000⟩], [7], [8]⟩ : Semaphore).cancelAll none).2.message
      = (none : Option String).getD "Semaphore cancelled" ∧
    ((⟨1, 0, [⟨4, 60000⟩], [7], [8]⟩ : Semaphore).cancelAll none).2.rejectedAnyUnlock
      = (⟨1, 0, [⟨4, 60000⟩], [7], [8]⟩ : Semaphore).waitingForAnyUnlockListeners ∧
    ((⟨1, 0, [⟨4, 60000⟩], [7], [8]⟩ : Semaphore).cancelAll none).2.rejectedFullyUnlock
      = (⟨1, 0, [⟨4, 60000⟩], [7], [8]⟩ : Semaphore).waitingForFullyUnlockListeners ∧
    ((⟨1, 0, [⟨4, 60000⟩], [7], [8]⟩ : Semaphore).cancelAll none).1.queue = [] ∧
    ((⟨1, 0, [⟨4, 60000⟩], [7], [8]⟩ : Semaphore).cancelAll none).1.freeCount
      = (⟨1, 0, [⟨4, 60000⟩], [7], [8]⟩ : Semaphore).maxCount ∧
    ((⟨1, 0, [⟨4, 60000⟩], [7], [8]⟩ : Semaphore).cancelAll none).1.waitingForAnyUnlockListeners
      = [] ∧
    ((⟨1, 0, [⟨4, 60000⟩], [7], [8]⟩ : Semaphore).cancelAll none).1.waitingForFullyUnlockListeners
      = [] ∧
    (((⟨1, 0, [⟨4, 60000⟩], [7], [8]⟩ : Semaphore).cancelAll none).1.acquire 9 0 none).2
      = AcquireOutcome.granted :=
  C4_cancelAll_drains_and_rejects ⟨1, 0, [⟨4, 60000⟩], [7], [8]⟩ none (by decide) 9 0 none

/-- C5: firing the timeout of one queued request removes exactly that
request from the queue (the others stay, in order), fails it with
`"Timeout acquiring semaphore"`, and leaves `freeCount` untouched; an
`acquire` with no timeout given queues with the 60 000 ms default. -/
theorem C5_timeout_scoped_removal
    (s : Semaphore) (r : Request) (hmem : r ∈ s.queue)
    (q : Request) (hq : q ∈ s.queue) (hne : q ≠ r)
    (t : Semaphore) (reqId now : Nat) (hheld : t.freeCount ≤ 0) :
    (s.fireTimeout r).2 = "Timeout acquiring semaphore" ∧
    (s.fireTimeout r).1.freeCount = s.freeCount ∧
    (s.fireTimeout r).1.queue = s.queue.erase r ∧
    (s.fireTimeout r).1.queue.length + 1 = s.queue.length ∧
    q ∈ (s.fireTimeout r).1.queue ∧
    timeoutOrDefault none = 60000 ∧
    (t.acquire reqId now none).2 = AcquireOutcome.queued ∧
    (t.acquire reqId now none).1.queue = t.queue ++ [⟨reqId, now + 60000⟩] := by
  have hlen : (s.queue.erase r).length = s.queue.length - 1 :=
    List.length_erase_of_mem hmem
  have hpos : 0 < s.queue.length := List.length_pos.mpr (List.ne_nil_of_mem hmem)
  have hnf : ¬ (0 < t.freeCount) := by omega
  refine ⟨rfl, rfl, rfl, ?_, ?_, rfl, ?_, ?_⟩
  · simp only [Semaphore.fireTimeout]
    omega
  · simp only [Semaphore.fireTimeout]
    exact (List.mem_erase_of_ne hne).mpr hq
  · rw [Semaphore.acquire, if_neg hnf]
  · rw [Semaphore.acquire, if_neg hnf]
    simp [timeoutOrDefault, DEFAULT_TIMEOUT_IN_MS]

theorem C5_timeout_scoped_removal_witness :
    ((⟨1, 0, [⟨4, 100⟩, ⟨5, 200⟩], [], []⟩ : Semaphore).fireTimeout ⟨4, 100⟩).2
      = "Timeout acquiring semaphore" ∧
    ((⟨1, 0, [⟨4, 100⟩, ⟨5, 200⟩], [], []⟩ : Semaphore).fireTimeout ⟨4, 100⟩).1.freeCount
      = (⟨1, 0, [⟨4, 100⟩, ⟨5, 200⟩], [], []⟩ : Semaphore).freeCount ∧
    ((⟨1, 0, [⟨4, 100⟩, ⟨5, 200⟩], [], []⟩ : Semaphore).fireTimeout ⟨4, 100⟩).1.queue
      = ([⟨4, 100⟩, ⟨5, 200⟩] : List Request).erase ⟨4, 100⟩ ∧
    ((⟨1, 0, [⟨4, 100⟩, ⟨5, 200⟩], [], []⟩ : Semaphore).fireTimeout ⟨4, 100⟩).1.queue.length + 1
      = (⟨1, 0, [⟨4, 100⟩, ⟨5, 200⟩], [], []⟩ : Semaphore).queue.length ∧
    (⟨5, 200⟩ : Request)
      ∈ ((⟨1, 0, [⟨4, 100⟩, ⟨5, 200⟩], [], []⟩ : Semaphore).fireTimeout ⟨4, 100⟩).1.queue ∧
    timeoutOrDefault none = 60000 ∧
    ((⟨1, 0, [], [], []⟩ : Semaphore).acquire 9 5 none).2 = AcquireOutcome.queued ∧
    ((⟨1, 0, [], [], []⟩ : Semaphore).acquire 9 5 none).1.queue
      = (⟨1, 0, [], [], []⟩ : Semaphore).queue ++ [⟨9, 5 + 60000⟩] :=
  C5_timeout_scoped_removal ⟨1, 0, [⟨4, 100⟩, ⟨5, 200⟩], [], []⟩ ⟨4, 100⟩ (by decide)
    ⟨5, 200⟩ (by decide) (by decide) ⟨1, 0, [], [], []⟩ 9 5 (by decide)

theorem create_writeSemaphore_eq (mr : Option Int) (l₀ : ReadWriteLock)
    (hok : ReadWriteLock.create mr = .ok l₀) :
    l₀.writeSemaphore = ⟨1, 1, [], [], []⟩ := by
  simp only [ReadWriteLock.create] at hok
  split at hok
  · rename_i rsem wsem heq1 heq2
    rw [Semaphore.create] at heq2
    norm_num at heq2
    injection hok with h2
    rw [← h2, ← heq2]
  · simp at hok
  · rename_i e heq2
    rw [Semaphore.create] at heq2
    norm_num at heq2
    exact Except.noConfusion heq2

/-- C6: `acquireRead` first waits for the write semaphore to be fully
unlocked and `acquireWrite` first waits for the read semaphore to be fully
unlocked, registering a fully-unlock listener and suspending whenever the
opposing semaphore has a permit out; a listener so registered is resolved
exactly by the `release` that returns the opposing semaphore to
`freeCount = maxCount` (a release that merely hands the permit to a queued
waiter resolves nothing, and an `acquire` never touches the listeners);
only after that does the writer take the single write-semaphore permit. -/
theorem C6_read_write_exclusion
    (l : ReadWriteLock) (lid : Nat)
    (hw : l.writeSemaphore.freeCount ≠ l.writeSemaphore.maxCount)
    (m : ReadWriteLock) (mid : Nat)
    (hr : m.readSemaphore.freeCount ≠ m.readSemaphore.maxCount)
    (u : Semaphore) (huq : u.queue = []) (hune : u.freeCount ≠ u.maxCount)
    (v : Semaphore) (a : Request) (va : List Request)
    (hv : v.queue = a :: va) (hvne : v.freeCount ≠ v.maxCount)
    (x : Semaphore) (xid xnow : Nat) (xp : Option Nat)
    (mr : Option Int) (l₀ : ReadWriteLock) (hok : ReadWriteLock.create mr = .ok l₀)
    (w : ReadWriteLock) (rid wnow : Nat) (wp : Option Nat)
    (hwfree : 0 < w.writeSemaphore.freeCount) :
    ((l.acquireReadStart lid).2 = StartOutcome.pendingListener ∧
     (l.acquireReadStart lid).1.writeSemaphore.waitingForFullyUnlockListeners
       = l.writeSemaphore.waitingForFullyUnlockListeners ++ [lid] ∧
     (l.acquireReadStart lid).1.readSemaphore = l.readSemaphore) ∧
    ((m.acquireWriteStart mid).2 = StartOutcome.pendingListener ∧
     (m.acquireWriteStart mid).1.readSemaphore.waitingForFullyUnlockListeners
       = m.readSemaphore.waitingForFullyUnlockListeners ++ [mid] ∧
     (m.acquireWriteStart mid).1.writeSemaphore = m.writeSemaphore) ∧
    (u.release.2.resolvedFully
       = (if u.freeCount + 1 = u.maxCount then u.waitingForFullyUnlockListeners else []) ∧
     u.release.1.waitingForFullyUnlockListeners
       = (if u.freeCount + 1 = u.maxCount then [] else u.waitingForFullyUnlockListeners) ∧
     u.release.1.freeCount = u.freeCount + 1) ∧
    (v.release.2.resolvedFully = [] ∧
     v.release.1.waitingForFullyUnlockListeners = v.waitingForFullyUnlockListeners) ∧
    (x.acquire xid xnow xp).1.waitingForFullyUnlockListeners
      = x.waitingForFullyUnlockListeners ∧
    l₀.writeSemaphore.maxCount = 1 ∧
    ((w.acquireWriteFinish rid wnow wp).2 = AcquireOutcome.granted ∧
     (w.acquireWriteFinish rid wnow wp).1.readSemaphore = w.readSemaphore ∧
     (w.acquireWriteFinish rid wnow wp).1.writeSemaphore.freeCount
       = w.writeSemaphore.freeCount - 1) := by
  have hwfu : l.writeSemaphore.waitForFullyUnlock lid
      = ({ l.writeSemaphore with waitingForFullyUnlockListeners :=
            l.writeSemaphore.waitingForFullyUnlockListeners ++ [lid] }, false) := by
    rw [Semaphore.waitForFullyUnlock, if_neg (fun h => hw h.symm)]
  have hrfu : m.readSemaphore.waitForFullyUnlock mid
      = ({ m.readSemaphore with waitingForFullyUnlockListeners :=
            m.readSemaphore.waitingForFullyUnlockListeners ++ [mid] }, false) := by
    rw [Semaphore.waitForFullyUnlock, if_neg (fun h => hr h.symm)]
  have hvrel : v.release = ({ v with queue := va }, ReleaseEffect.grantedNext a) := by
    rw [Semaphore.release, if_neg hvne, hv]
  have hacqw : w.writeSemaphore.acquire rid wnow wp
      = ({ w.writeSemaphore with freeCount := w.writeSemaphore.freeCount - 1 },
         AcquireOutcome.granted) := by
    rw [Semaphore.acquire, if_pos hwfree]
  refine ⟨⟨?_, ?_, ?_⟩, ⟨?_, ?_, ?_⟩, ⟨?_, ?_, ?_⟩, ⟨?_, ?_⟩, ?_, ?_, ⟨?_, ?_, ?_⟩⟩
  · simp [ReadWriteLock.acquireReadStart, hwfu]
  · simp [ReadWriteLock.acquireReadStart, hwfu]
  · simp [ReadWriteLock.acquireReadStart, hwfu]
  · simp [ReadWriteLock.acquireWriteStart, hrfu]
  · simp [ReadWriteLock.acquireWriteStart, hrfu]
  · simp [ReadWriteLock.acquireWriteStart, hrfu]
  · by_cases hful : u.freeCount + 1 = u.maxCount <;>
      simp [Semaphore.release, hune, huq, hful, ReleaseEffect.resolvedFully]
  · by_cases hful : u.freeCount + 1 = u.maxCount <;>
      simp [Semaphore.release, hune, huq, hful]
  · simp [Semaphore.release, hune, huq]
  · simp [hvrel, ReleaseEffect.resolvedFully]
  · simp [hvrel]
  · rw [Semaphore.acquire]
    split <;> rfl
  · rw [create_writeSemaphore_eq mr l₀ hok]
  · simp [ReadWriteLock.acquireWriteFinish, hacqw]
  · simp [ReadWriteLock.acquireWriteFinish, hacqw]
  · simp [ReadWriteLock.acquireWriteFinish, hacqw]

theorem C6_read_write_exclusion_witness :
    (((⟨⟨100, 100, [], [], []⟩, ⟨1, 0, [], [], []⟩⟩ : ReadWriteLock).acquireReadStart 1).2
        = StartOutcome.pendingListener ∧
      ((⟨⟨100, 100, [], [], []⟩, ⟨1, 0, [], [], []⟩⟩ : ReadWriteLock).acquireReadStart 1).1.writeSemaphore.waitingForFullyUnlockListeners
        = [1] ∧
      ((⟨⟨100, 100, [], [], []⟩, ⟨1, 0, [], [], []⟩⟩ : ReadWriteLock).acquireReadStart 1).1.readSemaphore
        = ⟨100, 100, [], [], []⟩) ∧
    (((⟨⟨100, 99, [], [], []⟩, ⟨1, 1, [], [], []⟩⟩ : ReadWriteLock).acquireWriteStart 2).2
        = StartOutcome.pendingListener ∧
      ((⟨⟨100, 99, [], [], []⟩, ⟨1, 1, [], [], []⟩⟩ : ReadWriteLock).acquireWriteStart 2).1.readSemaphore.waitingForFullyUnlockListeners
        = [2] ∧
      ((⟨⟨100, 99, [], [], []⟩, ⟨1, 1, [], [], []⟩⟩ : ReadWriteLock).acquireWriteStart 2).1.writeSemaphore
        = ⟨1, 1, [], [], []⟩) ∧
    ((⟨100, 99, [], [], [3]⟩ : Semaphore).release.2.resolvedFully = [3] ∧
      (⟨100, 99, [], [], [3]⟩ : Semaphore).release.1.waitingForFullyUnlockListeners = [] ∧
      (⟨100, 99, [], [], [3]⟩ : Semaphore).release.1.freeCount = 100) ∧
    ((⟨1, 0, [⟨4, 60000⟩], [], [5]⟩ : Semaphore).release.2.resolvedFully = [] ∧
      (⟨1, 0, [⟨4, 60000⟩], [], [5]⟩ : Semaphore).release.1.waitingForFullyUnlockListeners
        = [5]) ∧
    ((⟨1, 1, [], [], [6]⟩ : Semaphore).acquire 7 0 none).1.waitingForFullyUnlockListeners
      = [6] ∧
    (⟨⟨100, 100, [], [], []⟩, ⟨1, 1, [], [], []⟩⟩ : ReadWriteLock).writeSemaphore.maxCount
      = 1 ∧
    (((⟨⟨100, 100, [], [], []⟩, ⟨1, 1, [], [], []⟩⟩ : ReadWriteLock).acquireWriteFinish 8 0 none).2
        = AcquireOutcome.granted ∧
      ((⟨⟨100, 100, [], [], []⟩, ⟨1, 1, [], [], []⟩⟩ : ReadWriteLock).acquireWriteFinish 8 0 none).1.readSemaphore
        = ⟨100, 100, [], [], []⟩ ∧
      ((⟨⟨100, 100, [], [], []⟩, ⟨1, 1, [], [], []⟩⟩ : ReadWriteLock).acquireWriteFinish 8 0 none).1.writeSemaphore.freeCount
        = 0) :=
  C6_read_write_exclusion
    ⟨⟨100, 100, [], [], []⟩, ⟨1, 0, [], [], []⟩⟩ 1 (by decide)
    ⟨⟨100, 99, [], [], []⟩, ⟨1, 1, [], [], []⟩⟩ 2 (by decide)
    ⟨100, 99, [], [], [3]⟩ rfl (by decide)
    ⟨1, 0, [⟨4, 60000⟩], [], [5]⟩ ⟨4, 60000⟩ [] rfl (by decide)
    ⟨1, 1, [], [], [6]⟩ 7 0 none
    none ⟨⟨100, 100, [], [], []⟩, ⟨1, 1, [], [], []⟩⟩ rfl
    ⟨⟨100, 100, [], [], []⟩, ⟨1, 1, [], [], []⟩⟩ 8 0 none (by decide)

/-- C10: the `timeoutMs` parameter of `acquireRead` / `acquireWrite`
bounds only the inner semaphore acquisition: the preliminary
`waitForFullyUnlock` wait registers a listener with no timer, which
passing wall-clock time never rejects (time only fires the timers of
queued acquire requests), so a read issued while the write lock is held
stays pending for arbitrarily long; its timer — expiring `timeoutMs`
after that instant — is armed only when the inner `acquire` finally runs
on the read semaphore. -/
theorem C10_timeout_scope_is_inner_acquire_only
    (s : Semaphore) (now : Nat) (r : Request) (hr : r ∈ (s.advanceTime now).2)
    (l : ReadWriteLock) (lid : Nat)
    (hw : l.writeSemaphore.freeCount ≠ l.writeSemaphore.maxCount)
    (t : Nat)
    (m : ReadWriteLock) (rid tnow tm : Nat) (htm : tm ≠ 0)
    (hheld : m.readSemaphore.freeCount ≤ 0)
    (w : ReadWriteLock) (hwfree : 0 < w.readSemaphore.freeCount)
    (wid wnow : Nat) (wp : Option Nat) :
    ((s.advanceTime now).1.waitingForFullyUnlockListeners
        = s.waitingForFullyUnlockListeners ∧
      (s.advanceTime now).1.waitingForAnyUnlockListeners
        = s.waitingForAnyUnlockListeners ∧
      r ∈ s.queue) ∧
    ((l.acquireReadStart lid).2 = StartOutcome.pendingListener ∧
      (l.acquireReadStart lid).1.writeSemaphore.queue = l.writeSemaphore.queue ∧
      (l.acquireReadStart lid).1.readSemaphore = l.readSemaphore ∧
      lid ∈ (l.acquireReadStart lid).1.writeSemaphore.waitingForFullyUnlockListeners ∧
      lid ∈ ((l.acquireReadStart lid).1.writeSemaphore.advanceTime t).1.waitingForFullyUnlockListeners) ∧
    ((m.acquireReadFinish rid tnow (some tm)).1.readSemaphore.queue
        = m.readSemaphore.queue ++ [⟨rid, tnow + tm⟩] ∧
      (m.acquireReadFinish rid tnow (some tm)).2 = AcquireOutcome.queued) ∧
    (w.acquireReadFinish wid wnow wp).2 = AcquireOutcome.granted := by
  have hwfu : l.writeSemaphore.waitForFullyUnlock lid
      = ({ l.writeSemaphore with waitingForFullyUnlockListeners :=
            l.writeSemaphore.waitingForFullyUnlockListeners ++ [lid] }, false) := by
    rw [Semaphore.waitForFullyUnlock, if_neg (fun h => hw h.symm)]
  have hnm : ¬ (0 < m.readSemaphore.freeCount) := by omega
  have hmac : m.readSemaphore.acquire rid tnow (some tm)
      = ({ m.readSemaphore with queue :=
            m.readSemaphore.queue ++ [⟨rid, tnow + tm⟩] }, AcquireOutcome.queued) := by
    rw [Semaphore.acquire, if_neg hnm]
    simp [timeoutOrDefault, htm]
  refine ⟨⟨rfl, rfl, (List.mem_filter.mp hr).1⟩, ⟨?_, ?_, ?_, ?_, ?_⟩, ⟨?_, ?_⟩, ?_⟩
  · simp [ReadWriteLock.acquireReadStart, hwfu]
  · simp [ReadWriteLock.acquireReadStart, hwfu]
  · simp [ReadWriteLock.acquireReadStart, hwfu]
  · simp [ReadWriteLock.acquireReadStart, hwfu]
  · simp [ReadWriteLock.acquireReadStart, hwfu, Semaphore.advanceTime]
  · simp [ReadWriteLock.acquireReadFinish, hmac]
  · simp [ReadWriteLock.acquireReadFinish, hmac]
  · simp only [ReadWriteLock.acquireReadFinish]
    rw [Semaphore.acquire, if_pos hwfree]

theorem C10_timeout_scope_is_inner_acquire_only_witness :
    (((⟨1, 0, [⟨4, 50⟩], [], [9]⟩ : Semaphore).advanceTime 100).1.waitingForFullyUnlockListeners
        = [9] ∧
      ((⟨1, 0, [⟨4, 50⟩], [], [9]⟩ : Semaphore).advanceTime 100).1.waitingForAnyUnlockListeners
        = [] ∧
      (⟨4, 50⟩ : Request) ∈ (⟨1, 0, [⟨4, 50⟩], [], [9]⟩ : Semaphore).queue) ∧
    (((⟨⟨100, 100, [], [], []⟩, ⟨1, 0, [], [], []⟩⟩ : ReadWriteLock).acquireReadStart 1).2
        = StartOutcome.pendingListener ∧
      ((⟨⟨100, 100, [], [], []⟩, ⟨1, 0, [], [], []⟩⟩ : ReadWriteLock).acquireReadStart 1).1.writeSemaphore.queue
        = [] ∧
      ((⟨⟨100, 100, [], [], []⟩, ⟨1, 0, [], [], []⟩⟩ : ReadWriteLock).acquireReadStart 1).1.readSemaphore
        = ⟨100, 100, [], [], []⟩ ∧
      1 ∈ ((⟨⟨100, 100, [], [], []⟩, ⟨1, 0, [], [], []⟩⟩ : ReadWriteLock).acquireReadStart 1).1.writeSemaphore.waitingForFullyUnlockListeners ∧
      1 ∈ (((⟨⟨100, 100, [], [], []⟩, ⟨1, 0, [], [], []⟩⟩ : ReadWriteLock).acquireReadStart 1).1.writeSemaphore.advanceTime 1000000).1.waitingForFullyUnlockListeners) ∧
    (((⟨⟨3, 0, [], [], []⟩, ⟨1, 1, [], [], []⟩⟩ : ReadWriteLock).acquireReadFinish 5 300 (some 100)).1.readSemaphore.queue
        = [⟨5, 400⟩] ∧
      ((⟨⟨3, 0, [], [], []⟩, ⟨1, 1, [], [], []⟩⟩ : ReadWriteLock).acquireReadFinish 5 300 (some 100)).2
        = AcquireOutcome.queued) ∧
    ((⟨⟨100, 100, [], [], []⟩, ⟨1, 0, [], [], []⟩⟩ : ReadWriteLock).acquireReadFinish 6 0 none).2
      = AcquireOutcome.granted :=
  C10_timeout_scope_is_inner_acquire_only
    ⟨1, 0, [⟨4, 50⟩], [], [9]⟩ 100 ⟨4, 50⟩ (by decide)
    ⟨⟨100, 100, [], [], []⟩, ⟨1, 0, [], [], []⟩⟩ 1 (by decide) 1000000
    ⟨⟨3, 0, [], [], []⟩, ⟨1, 1, [], [], []⟩⟩ 5 300 100 (by decide) (by decide)
    ⟨⟨100, 100, [], [], []⟩, ⟨1, 0, [], [], []⟩⟩ (by decide) 6 0 none

/-- C7: the claim says a second construction of a distributed primitive
with an existing name reuses the registry entry unchanged.  Evaluating the
embedded `InMemoryDistributedSemaphore` constructor at a registry whose
entry `semaphore:a` is held (`freeCount = 0`) shows the constructor
unconditionally replaces the entry with a fresh `Semaphore` (its state is
reset to `freeCount = 1`), while the `InMemoryDistributedReadWriteLock`
constructor — guarded by `has` — leaves an existing entry untouched. -/
theorem C7_second_construction_resets_semaphore_entry :
    InMemoryDistributedSemaphore.construct "a" 1 [("semaphore:a", ⟨1, 0, [], [], []⟩)]
      = .ok (⟨1, "semaphore:a", false⟩, [("semaphore:a", ⟨1, 1, [], [], []⟩)]) ∧
    ((⟨1, 1, [], [], []⟩ : Semaphore) ≠ ⟨1, 0, [], [], []⟩) ∧
    InMemoryDistributedReadWriteLock.construct "a" none
        [("rwlock:a", ⟨⟨100, 99, [], [], []⟩, ⟨1, 1, [], [], []⟩⟩)]
      = .ok (⟨"rwlock:a", false⟩,
             [("rwlock:a", ⟨⟨100, 99, [], [], []⟩, ⟨1, 1, [], [], []⟩⟩)]) := by
  refine ⟨rfl, by decide, rfl⟩

/-- C8: the claim says `destroy` cancels the backing primitive's
outstanding wait queue with a destroy-specific message.  Evaluating the
embedded `InMemoryDistributedSemaphore.destroy` on a registry whose
backing semaphore has a queued waiter shows it only flips `_isDestroyed`
and deletes the entry — the list of requests it rejects is empty, the
waiter is left pending forever.  The rwlock wrapper, by contrast, does
cancel both inner semaphores with the default message
`"ReadWriteLock destroyed"`. -/
theorem C8_semaphore_destroy_skips_cancellation :
    InMemoryDistributedSemaphore.destroy ⟨1, "semaphore:semaphore1", false⟩
        [("semaphore:semaphore1", ⟨1, 0, [⟨7, 60000⟩], [], []⟩)]
      = (⟨1, "semaphore:semaphore1", true⟩, [], []) ∧
    (⟨1, 0, [⟨7, 60000⟩], [], []⟩ : Semaphore).queue ≠ [] ∧
    InMemoryDistributedReadWriteLock.destroy ⟨"rwlock:a", false⟩ none
        [("rwlock:a", ⟨⟨100, 100, [], [], []⟩, ⟨1, 0, [⟨9, 60000⟩], [], []⟩⟩)]
      = .ok (⟨"rwlock:a", true⟩, [],
             ⟨[], [], [], "ReadWriteLock destroyed"⟩,
             ⟨[⟨9, 60000⟩], [], [], "ReadWriteLock destroyed"⟩) ∧
    InMemoryDistributedSemaphore.getSemaphoreOrException
        ⟨1, "semaphore:semaphore1", true⟩ []
      = .error (.destroyed "semaphore:semaphore1") ∧
    InMemoryDistributedSemaphore.getSemaphoreOrException
        ⟨1, "semaphore:semaphore1", false⟩ []
      = .error (.notFound "semaphore:semaphore1") := by
  refine ⟨rfl, by decide, rfl, rfl, rfl⟩

/-- C9 counterexample: the claim says `ReadWriteLock` construction fails
for every explicitly given `maxReaders <= 0`, including `0`.  But
`props?.maxReaders || 100` treats the falsy `0` as absent: construction
with `maxReaders = 0` succeeds with the default capacity `100`. -/
theorem C9_counterexample_zero_maxReaders_succeeds :
    ReadWriteLock.create (some 0)
      = .ok ⟨⟨100, 100, [], [], []⟩, ⟨1, 1, [], [], []⟩⟩ := rfl

/-- C9 (amended): for the plain `ReadWriteLock`, an explicitly given
negative `maxReaders` fails construction (via the read semaphore's
`maxCount` assertion), but `maxReaders = 0` is falsy and is treated as
omitted — construction succeeds with the default `100`; a positive value
is used as given, and omitting the field also defaults to `100`.  The
`DistributedReadWriteLock` wrapper, by contrast, does reject every
explicitly given `maxReaders <= 0`, including `0`. -/
theorem C9_amended_maxReaders_validation
    (v : Int) (hvneg : v < 0)
    (w : Int) (hwpos : 0 < w)
    (u : Int) (hule : u ≤ 0)
    (registry : List (String × ReadWriteLock)) :
    ReadWriteLock.create (some v) = .error "maxCount must be greater than 0" ∧
    ReadWriteLock.create (some w) = .ok ⟨⟨w, w, [], [], []⟩, ⟨1, 1, [], [], []⟩⟩ ∧
    ReadWriteLock.create (some 0) = .ok ⟨⟨100, 100, [], [], []⟩, ⟨1, 1, [], [], []⟩⟩ ∧
    ReadWriteLock.create none = .ok ⟨⟨100, 100, [], [], []⟩, ⟨1, 1, [], [], []⟩⟩ ∧
    DistributedReadWriteLock.create "x" (some u) registry
      = .error "maxReaders must be greater than 0" := by
  have hvne : v ≠ 0 := by omega
  have hvnlt : ¬ (0 < v) := by omega
  have hwne : w ≠ 0 := by omega
  refine ⟨?_, ?_, rfl, rfl, ?_⟩
  · simp [ReadWriteLock.create, Semaphore.create, hvne, hvnlt]
  · simp [ReadWriteLock.create, Semaphore.create, hwne, hwpos]
  · simp [DistributedReadWriteLock.create, hule]

theorem C9_amended_maxReaders_validation_witness :
    ReadWriteLock.create (some (-1)) = .error "maxCount must be greater than 0" ∧
    ReadWriteLock.create (some 5) = .ok ⟨⟨5, 5, [], [], []⟩, ⟨1, 1, [], [], []⟩⟩ ∧
    ReadWriteLock.create (some 0) = .ok ⟨⟨100, 100, [], [], []⟩, ⟨1, 1, [], [], []⟩⟩ ∧
    ReadWriteLock.create none = .ok ⟨⟨100, 100, [], [], []⟩, ⟨1, 1, [], [], []⟩⟩ ∧
    DistributedReadWriteLock.create "x" (some 0) []
      = .error "maxReaders must be greater than 0" :=
  C9_amended_maxReaders_validation (-1) (by decide) 5 (by decide) 0 (by decide) []

theorem C3_amended_release_idempotent_when_fully_released_witness :
    (⟨1, 1, [], [], []⟩ : Semaphore).release = (⟨1, 1, [], [], []⟩, ReleaseEffect.noop) ∧
    (((⟨2, 2, [], [], []⟩ : Semaphore).acquire 1 0 none).1.release).1.release
      = ((((⟨2, 2, [], [], []⟩ : Semaphore).acquire 1 0 none).1.release).1,
         ReleaseEffect.noop) ∧
    (((⟨2, 2, [], [], []⟩ : Semaphore).acquire 1 0 none).1.release).1.freeCount = 2 :=
  C3_amended_release_idempotent_when_fully_released
    ⟨1, 1, [], [], []⟩ rfl 2 ⟨2, 2, [], [], []⟩ rfl 1 0 none
